import Mathlib

/-!
Shallow embedding of `streamlit_restaurant_app/app/restaurant_recommender.py`.

Table cells are `Option String` (`none` models a pandas NaN cell); a
DataFrame is its row list together with a flag recording whether the dataset
columns are present (`pd.DataFrame()` produced on a missing file has no
columns at all, while `pd.read_csv` of the dataset has them).  The externally
trained TF-IDF vectorizer and nearest-neighbor index are opaque artifacts,
modelled from the spec as an abstract transform `vectorize : String → α`
and a dissimilarity `dist : α → α → ℕ`.
-/

/-- One record of the dataset, with the CSV column names of the source.
A `none` field models a NaN cell. -/
structure Row where
  Restaurant_Name : Option String
  Cuisines : Option String
  Locality : Option String
  Detail_address : Option String
  Ratings_out_of_5 : Option String
  Number_of_votes : Option String
deriving DecidableEq

/-- A pandas DataFrame: its rows, plus whether the dataset columns exist
(`pd.DataFrame()` has no columns; `pd.read_csv` of the dataset file has them). -/
structure DataFrame where
  hasCols : Bool
  rows : List Row
deriving DecidableEq

/-- Embeds `load_data` (lines 10-24): when the dataset file is absent the
function shows `st.error` and returns an empty `pd.DataFrame()`; otherwise it
returns the parsed rows.  The input is `none` when the file does not exist,
`some rs` when it exists and parses to the row list `rs`.  The second
component records whether `st.error` was shown. -/
def load_data (file : Option (List Row)) : DataFrame × Bool :=
  match file with
  | none => ({ hasCols := false, rows := [] }, true)
  | some rs => ({ hasCols := true, rows := rs }, false)

/-- Embeds line 52, `df[combined column] = df[name] + space + df[cuisines] +
space + df[locality]`: pandas string addition propagates NaN, so the result is
`none` as soon as one of the three fields is missing. -/
def combined_text (r : Row) : Option String :=
  match r.Restaurant_Name, r.Cuisines, r.Locality with
  | some n, some c, some l => some (n ++ " " ++ c ++ " " ++ l)
  | _, _, _ => none

/-- Embeds `vectorizer.transform` applied to a whole column (line 53): the
sklearn vectorizer raises on a NaN document, so the batch transform succeeds
only when every combined text is present, and then transforms each row in
order. -/
def transformSeries {α : Type} (f : String → α) :
    List (Option String) → Except String (List α)
  | [] => Except.ok []
  | none :: _ => Except.error "transform: nan document"
  | some s :: ts =>
    match transformSeries f ts with
    | Except.error e => Except.error e
    | Except.ok vs => Except.ok (f s :: vs)

/-- Embeds lines 52-53 as a whole: accessing the name column of the
column-less empty DataFrame raises `KeyError`; otherwise the combined texts
are built and transformed into the matrix. -/
def startupMatrix {α : Type} (f : String → α) (df : DataFrame) :
    Except String (List α) :=
  if df.hasCols then transformSeries f (df.rows.map combined_text)
  else Except.error "KeyError"

/-- Matches a single pattern character against a text character, for the
fragment of Python regular expressions whose characters are literals or the
dot metacharacter; `case=False` is lowercasing both sides. -/
def charMatch (p c : Char) : Bool :=
  decide (p = '.') || decide (p.toLower = c.toLower)

/-- Pattern matches at the front of the text (regex fragment). -/
def matchHere : List Char → List Char → Bool
  | [], _ => true
  | _ :: _, [] => false
  | p :: ps, c :: cs => charMatch p c && matchHere ps cs

/-- Pattern matches somewhere in the text, the semantics of a Python
regex search as used by `Series.str.contains`. -/
def regexSearch : List Char → List Char → Bool
  | pat, [] => matchHere pat []
  | pat, c :: cs => matchHere pat (c :: cs) || regexSearch pat cs

/-- Embeds `Series.str.contains(sel, case=False, na=False)` on one cell
(line 88): a NaN cell yields `false` (`na=False`), otherwise the selected
value is interpreted as a case-insensitive regular expression searched for
in the cell (the pandas default is `regex=True`). -/
def str_contains (cell : Option String) (sel : String) : Bool :=
  match cell with
  | none => false
  | some s => regexSearch sel.data s.data

/-- Pattern matches literally (no metacharacters) at the front of the text,
case-insensitively. -/
def litHere : List Char → List Char → Bool
  | [], _ => true
  | _ :: _, [] => false
  | p :: ps, c :: cs => decide (p.toLower = c.toLower) && litHere ps cs

/-- Pattern occurs literally somewhere in the text, case-insensitively. -/
def litSearch : List Char → List Char → Bool
  | pat, [] => litHere pat []
  | pat, c :: cs => litHere pat (c :: cs) || litSearch pat cs

/-- Written from the words of the spec, for comparison with the code: the
text `s` contains `sel` as a case-insensitive substring. -/
def containsCI (sel s : String) : Bool :=
  litSearch sel.data s.data

/-- The metacharacters of Python regular expressions. -/
def regexMetachars : List Char :=
  ['.', '*', '+', '?', '(', ')', '[', ']', '\x7b', '\x7d', '\\', '|', '^', '$']

/-- The selected value contains no regex metacharacter. -/
def noRegexMeta (s : String) : Prop :=
  ∀ ch ∈ s.data, ch ∉ regexMetachars

instance (s : String) : Decidable (noRegexMeta s) :=
  List.decidableBAll (fun ch => ch ∉ regexMetachars) s.data

/-- Per-row keep condition of the locality filter (lines 84-85): kept iff the
locality cell equals the selected value, or the criterion is the wildcard;
a NaN cell never equals a string in pandas. -/
def localityMatch (sel : String) (r : Row) : Bool :=
  if sel = "Any" then true else decide (r.Locality = some sel)

/-- Per-row keep condition of the cuisine filter (lines 87-88). -/
def cuisineMatch (sel : String) (r : Row) : Bool :=
  if sel = "Any" then true else str_contains r.Cuisines sel

/-- Embeds lines 82-88: `filtered_df = df.copy()` keeps the original integer
index labels (modelled by `List.enum`), then each criterion other than the
wildcard narrows the frame by its boolean mask. -/
def filtered_df (df : List Row) (loc cui : String) : List (ℕ × Row) :=
  let fd0 := df.enum
  let fd1 :=
    if loc = "Any" then fd0
    else fd0.filter (fun p => decide (p.2.Locality = some loc))
  if cui = "Any" then fd1
  else fd1.filter (fun p => str_contains p.2.Cuisines cui)

/-- Comparison of two index-distance pairs by distance. -/
def distLE (p q : ℕ × ℕ) : Prop :=
  p.2 ≤ q.2

instance : DecidableRel distLE :=
  fun p q => Nat.decLe p.2 q.2

instance : IsTotal (ℕ × ℕ) distLE :=
  ⟨fun p q => Nat.le_total p.2 q.2⟩

instance : IsTrans (ℕ × ℕ) distLE :=
  ⟨fun _ _ _ h h2 => Nat.le_trans h h2⟩

/-- Modelled from the spec: the pre-trained nearest-neighbor index over the
text feature matrix `m`.  `kneighbors` returns the `n` row indices of the
original matrix ranked nearest first by the configured dissimilarity `dist`
(ties ranked by row index); sklearn raises when `n` exceeds the number of
indexed samples. -/
def kneighbors {α : Type} (dist : α → α → ℕ) (m : List α) (q : α) (n : ℕ) :
    Except String (List ℕ) :=
  if m.length < n then Except.error "n_neighbors larger than sample count"
  else
    Except.ok
      (((List.insertionSort distLE
          (m.enum.map (fun p => (p.1, dist p.2 q)))).map Prod.fst).take n)

/-- Embeds the rendering loop (lines 101-115): each neighbor index is looked
up positionally in the original table `df` with `df.iloc`, which raises on an
out-of-range index. -/
def renderRows (df : List Row) : List ℕ → Except String (List Row)
  | [] => Except.ok []
  | i :: is =>
    match df.get? i with
    | none => Except.error "IndexError"
    | some r =>
      match renderRows df is with
      | Except.error e => Except.error e
      | Except.ok rs => Except.ok (r :: rs)

/-- Observable outcome of one press of the Find Restaurants button. -/
inductive Outcome where
  | warning : Outcome
  | crash : String → Outcome
  | results : List ℕ → List Row → Outcome
deriving DecidableEq

/-- Outcome of the button handler together with how many nearest-neighbor
queries were issued. -/
structure Trace where
  outcome : Outcome
  knnCalls : ℕ
deriving DecidableEq

/-- Embeds the button handler (lines 81-115): filter, warn on an empty
filtered frame, otherwise take the combined text of the first filtered row
as the seed, vectorize it (raising on NaN), query the nearest-neighbor index
for 6 neighbors, and render every neighbor but the first by looking it up in
the original table. -/
def buttonHandler {α : Type} (vectorize : String → α) (dist : α → α → ℕ)
    (df : List Row) (m : List α) (loc cui : String) : Trace :=
  match (filtered_df df loc cui).head? with
  | none => { outcome := Outcome.warning, knnCalls := 0 }
  | some p =>
    match combined_text p.2 with
    | none => { outcome := Outcome.crash "transform: nan document", knnCalls := 0 }
    | some q =>
      match kneighbors dist m (vectorize q) 6 with
      | Except.error e => { outcome := Outcome.crash e, knnCalls := 1 }
      | Except.ok inds =>
        match renderRows df inds.tail with
        | Except.error e => { outcome := Outcome.crash e, knnCalls := 1 }
        | Except.ok rows => { outcome := Outcome.results inds rows, knnCalls := 1 }

/-- A concrete dissimilarity used to instantiate the opaque artifact in
witnesses: distance zero between equal vectors, one otherwise. -/
def dist01 {α : Type} [DecidableEq α] (v w : α) : ℕ :=
  if v = w then 0 else 1

/-- Concrete six-row table with pairwise distinct combined texts; the first
row has locality c. -/
def rW0 : Row := ⟨some "a", some "b", some "c", none, none, none⟩

/-- Second concrete row. -/
def rW1 : Row := ⟨some "d", some "e", some "f", none, none, none⟩

/-- Third concrete row. -/
def rW2 : Row := ⟨some "g", some "h", some "i", none, none, none⟩

/-- Fourth concrete row. -/
def rW3 : Row := ⟨some "j", some "k", some "l", none, none, none⟩

/-- Fifth concrete row. -/
def rW4 : Row := ⟨some "m", some "n", some "o", none, none, none⟩

/-- Sixth concrete row. -/
def rW5 : Row := ⟨some "p", some "q", some "r", none, none, none⟩

/-- Concrete table of the six distinct rows. -/
def dfW : List Row := [rW0, rW1, rW2, rW3, rW4, rW5]

/-- Text feature matrix of `dfW` under the identity transform. -/
def mW : List String := ["a b c", "d e f", "g h i", "j k l", "m n o", "p q r"]

/-- First row of the duplicate-text table: combined text is the same as the
second row, but the cuisines cell differs. -/
def rD0 : Row := ⟨some "a b", some "c", some "l", none, none, none⟩

/-- Second row of the duplicate-text table: same combined text as the first
row, yet its cuisines cell contains b while the first does not. -/
def rD1 : Row := ⟨some "a", some "b c", some "l", none, none, none⟩

/-- Filler row. -/
def rD2 : Row := ⟨some "d", some "e", some "l", none, none, none⟩

/-- Filler row. -/
def rD3 : Row := ⟨some "f", some "g", some "l", none, none, none⟩

/-- Filler row. -/
def rD4 : Row := ⟨some "h", some "i", some "l", none, none, none⟩

/-- Filler row. -/
def rD5 : Row := ⟨some "j", some "k", some "l", none, none, none⟩

/-- Six-row table whose first two rows share one combined text. -/
def dfDup : List Row := [rD0, rD1, rD2, rD3, rD4, rD5]

/-- Text feature matrix of `dfDup` under the identity transform. -/
def mDup : List String := ["a b c l", "a b c l", "d e l", "f g l", "h i l", "j k l"]

/-- Row whose cuisines cell is bxd, used against the pattern b.d. -/
def rBXD : Row := ⟨some "n", some "bxd", some "l2", none, none, none⟩

/-- Row whose cuisines cell is axc, used against the pattern a.c. -/
def rAXC : Row := ⟨some "n", some "axc", some "l", none, none, none⟩

/-- Row with a NaN cuisines cell. -/
def rMiss : Row := ⟨some "a", none, some "l", none, none, none⟩

/-- Table whose first row has a NaN cuisines cell. -/
def dfMiss : List Row := [rMiss, rW1, rW2, rW3, rW4, rW5]

/-- Row whose cuisines cell contains Pizza with a capital letter. -/
def rPizza : Row := ⟨some "p", some "Wood, Pizza, Bar", some "l", none, none, none⟩

/-- The filtered frame is a sublist of the enumerated original table. -/
theorem filtered_df_sublist_enum (df : List Row) (loc cui : String) :
    (filtered_df df loc cui).Sublist df.enum := by
  simp only [filtered_df]
  split
  · split
    · exact List.Sublist.refl _
    · exact List.filter_sublist _
  · split
    · exact List.filter_sublist _
    · exact (List.filter_sublist _).trans (List.filter_sublist _)

/-- Any member of the filtered frame is the row of the original table at its
index label. -/
theorem mem_filtered_df (df : List Row) (loc cui : String) (p : ℕ × Row)
    (hp : p ∈ filtered_df df loc cui) : df.get? p.1 = some p.2 := by
  have h2 : p ∈ df.enum := (filtered_df_sublist_enum df loc cui).subset hp
  have h3 := List.mem_enum_iff_getElem?.mp h2
  simpa [List.get?_eq_getElem?] using h3

/-- The head of a list is a member of it. -/
theorem mem_of_head?_eq {β : Type} (l : List β) (a : β) (h : l.head? = some a) :
    a ∈ l := by
  cases l with
  | nil => simp at h
  | cons b t =>
    simp only [List.head?_cons, Option.some.injEq] at h
    exact h ▸ List.mem_cons_self b t

/-- A successful batch transform has one vector per document, each the
transform of the document at the same position. -/
theorem transformSeries_ok {α : Type} (f : String → α) :
    ∀ (ts : List (Option String)) (m : List α),
      transformSeries f ts = Except.ok m →
      m.length = ts.length ∧
      ∀ j t, ts.get? j = some t → ∃ s, t = some s ∧ m.get? j = some (f s) := by
  intro ts
  induction ts with
  | nil =>
    intro m h
    simp only [transformSeries, Except.ok.injEq] at h
    subst h
    refine ⟨rfl, ?_⟩
    intro j t ht
    simp at ht
  | cons t0 ts ih =>
    intro m h
    cases t0 with
    | none => simp [transformSeries] at h
    | some s =>
      cases hrec : transformSeries f ts with
      | error e => simp [transformSeries, hrec] at h
      | ok vs =>
        simp only [transformSeries, hrec, Except.ok.injEq] at h
        subst h
        obtain ⟨hlen, hget⟩ := ih vs hrec
        refine ⟨by simp [hlen], ?_⟩
        intro j t ht
        cases j with
        | zero =>
          simp only [List.get?_cons_zero, Option.some.injEq] at ht
          exact ⟨s, ht.symm, rfl⟩
        | succ k =>
          simp only [List.get?_cons_succ] at ht
          exact hget k t ht

/-- The head of the sorted pair list is a member of minimal distance. -/
theorem insertionSort_head_min (l : List (ℕ × ℕ)) (p : ℕ × ℕ) (t : List (ℕ × ℕ))
    (h : List.insertionSort distLE l = p :: t) :
    p ∈ l ∧ ∀ x ∈ l, p.2 ≤ x.2 := by
  have hperm : (List.insertionSort distLE l).Perm l := List.perm_insertionSort distLE l
  rw [h] at hperm
  refine ⟨hperm.subset (List.mem_cons_self p t), ?_⟩
  intro x hx
  have hx2 : x ∈ p :: t := hperm.symm.subset hx
  rcases List.mem_cons.mp hx2 with h1 | h2
  · exact h1 ▸ Nat.le_refl _
  · have hs : List.Sorted distLE (p :: t) := by
      rw [← h]
      exact List.sorted_insertionSort distLE l
    exact List.rel_of_sorted_cons hs x h2

/-- A successful nearest-neighbor query returns exactly `n` indices, all of
them positions of the indexed matrix. -/
theorem kneighbors_ok {α : Type} (dist : α → α → ℕ) (m : List α) (q : α)
    (n : ℕ) (hnm : ¬ m.length < n) :
    ∃ inds, kneighbors dist m q n = Except.ok inds ∧ inds.length = n ∧
      ∀ j ∈ inds, j < m.length := by
  refine ⟨_, by rw [kneighbors, if_neg hnm], ?_, ?_⟩
  · simp [List.length_take, List.enum_length]
    omega
  · intro j hj
    have hj2 := List.take_subset _ _ hj
    obtain ⟨x, hx1, hx2⟩ := List.mem_map.mp hj2
    have hx3 : x ∈ m.enum.map (fun p => (p.1, dist p.2 q)) := by
      have := (List.perm_insertionSort distLE _).subset hx1
      exact this
    obtain ⟨a, ha1, ha2⟩ := List.mem_map.mp hx3
    have ha3 := List.mem_enum_iff_getElem?.mp ha1
    have ha4 : a.1 < m.length := by
      have := List.getElem?_eq_some_iff.mp ha3
      exact this.1
    subst hx2
    obtain rfl := ha2
    simpa using ha4

/-- If the query vector occurs in the matrix at position `i` at distance zero
and no other matrix row is at distance zero from it, then a successful
nearest-neighbor query for at least one neighbor ranks `i` first. -/
theorem kneighbors_head {α : Type} (dist : α → α → ℕ) (m : List α) (q : α)
    (n : ℕ) (hn : 0 < n) (i : ℕ) (v : α) (hv : m.get? i = some v)
    (hv0 : dist v q = 0)
    (huniq : ∀ p ∈ m.enum, dist p.2 q = 0 → p.1 = i)
    (inds : List ℕ) (hok : kneighbors dist m q n = Except.ok inds) :
    inds.head? = some i := by
  by_cases hlt : m.length < n
  · rw [kneighbors, if_pos hlt] at hok
    simp at hok
  · rw [kneighbors, if_neg hlt] at hok
    simp only [Except.ok.injEq] at hok
    subst hok
    set pairs := m.enum.map (fun p => (p.1, dist p.2 q)) with hpairs
    have hplen : pairs.length = m.length := by
      rw [hpairs]
      simp [List.enum_length]
    cases hc : List.insertionSort distLE pairs with
    | nil =>
      exfalso
      have hlen := congrArg List.length hc
      simp only [List.length_insertionSort, List.length_nil] at hlen
      omega
    | cons p0 t0 =>
      obtain ⟨hp0mem, hp0min⟩ := insertionSort_head_min pairs p0 t0 hc
      have hiv : ((i, v) : ℕ × α) ∈ m.enum := by
        apply List.mem_enum_iff_getElem?.mpr
        rw [← List.get?_eq_getElem?]
        exact hv
      have hi0 : ((i, 0) : ℕ × ℕ) ∈ pairs := by
        rw [hpairs]
        exact List.mem_map.mpr ⟨(i, v), hiv, by simp [hv0]⟩
      have h0 : p0.2 = 0 := Nat.le_zero.mp (hp0min (i, 0) hi0)
      have hp0mem2 : p0 ∈ m.enum.map (fun p => (p.1, dist p.2 q)) := by
        rw [← hpairs]
        exact hp0mem
      obtain ⟨a, ha, hpa⟩ := List.mem_map.mp hp0mem2
      have ha0 : dist a.2 q = 0 := by
        have hsnd := congrArg Prod.snd hpa
        simp only at hsnd
        rw [hsnd, h0]
      have hp01 : p0.1 = i := by
        have hfst := congrArg Prod.fst hpa
        simp only at hfst
        rw [← hfst]
        exact huniq a ha ha0
      cases n with
      | zero => omega
      | succ k => simp [hp01]

/-- Rendering succeeds, with one row per index, when every index is in
range. -/
theorem renderRows_ok (df : List Row) :
    ∀ inds : List ℕ, (∀ j ∈ inds, j < df.length) →
      ∃ rows, renderRows df inds = Except.ok rows ∧ rows.length = inds.length := by
  intro inds
  induction inds with
  | nil => exact fun _ => ⟨[], rfl, rfl⟩
  | cons a l ih =>
    intro h
    have ha : a < df.length := h a (List.mem_cons_self a l)
    have hga : df.get? a = some (df.get ⟨a, ha⟩) := List.get?_eq_get ha
    obtain ⟨rows, h1, h2⟩ := ih fun j hj => h j (List.mem_cons_of_mem a hj)
    refine ⟨df.get ⟨a, ha⟩ :: rows, ?_, by simp [h2]⟩
    simp only [renderRows, hga, h1]

/-- Characterization of a results outcome of the button handler: the seed is
the first filtered row, its combined text feeds one nearest-neighbor query
over the startup matrix, and the rendered rows come from the original table
by the returned indices with the first index dropped. -/
theorem buttonHandler_results_inv {α : Type} (vectorize : String → α)
    (dist : α → α → ℕ) (df : List Row) (m : List α) (loc cui : String)
    (inds : List ℕ) (rows : List Row)
    (h : (buttonHandler vectorize dist df m loc cui).outcome
          = Outcome.results inds rows) :
    ∃ p q, (filtered_df df loc cui).head? = some p ∧
      combined_text p.2 = some q ∧
      kneighbors dist m (vectorize q) 6 = Except.ok inds ∧
      renderRows df inds.tail = Except.ok rows := by
  cases hfd : (filtered_df df loc cui).head? with
  | none =>
    have he : buttonHandler vectorize dist df m loc cui = ⟨Outcome.warning, 0⟩ := by
      simp only [buttonHandler, hfd]
    rw [he] at h
    simp at h
  | some p =>
    cases hct : combined_text p.2 with
    | none =>
      have he : buttonHandler vectorize dist df m loc cui
          = ⟨Outcome.crash "transform: nan document", 0⟩ := by
        simp only [buttonHandler, hfd, hct]
      rw [he] at h
      simp at h
    | some q =>
      cases hkn : kneighbors dist m (vectorize q) 6 with
      | error e =>
        have he : buttonHandler vectorize dist df m loc cui
            = ⟨Outcome.crash e, 1⟩ := by
          simp only [buttonHandler, hfd, hct, hkn]
        rw [he] at h
        simp at h
      | ok inds2 =>
        cases hrr : renderRows df inds2.tail with
        | error e =>
          have he : buttonHandler vectorize dist df m loc cui
              = ⟨Outcome.crash e, 1⟩ := by
            simp only [buttonHandler, hfd, hct, hkn, hrr]
          rw [he] at h
          simp at h
        | ok rows2 =>
          have he : buttonHandler vectorize dist df m loc cui
              = ⟨Outcome.results inds2 rows2, 1⟩ := by
            simp only [buttonHandler, hfd, hct, hkn, hrr]
          rw [he] at h
          simp only [Outcome.results.injEq] at h
          obtain ⟨rfl, rfl⟩ := h
          exact ⟨p, q, rfl, hct, hkn, hrr⟩

/-- On a dot-free pattern, anchored regex matching is literal matching. -/
theorem matchHere_eq_litHere :
    ∀ (pat s : List Char), (∀ p ∈ pat, p ≠ '.') → matchHere pat s = litHere pat s := by
  intro pat
  induction pat with
  | nil => intro s _; cases s <;> rfl
  | cons p ps ih =>
    intro s h
    cases s with
    | nil => rfl
    | cons c cs =>
      have hp : p ≠ '.' := h p (List.mem_cons_self p ps)
      have hrest : ∀ x ∈ ps, x ≠ '.' := fun x hx => h x (List.mem_cons_of_mem p hx)
      simp only [matchHere, litHere, charMatch, ih cs hrest, decide_eq_false hp,
        Bool.false_or]

/-- On a dot-free pattern, regex search is literal substring search. -/
theorem regexSearch_eq_litSearch (pat : List Char) (h : ∀ p ∈ pat, p ≠ '.') :
    ∀ s : List Char, regexSearch pat s = litSearch pat s := by
  intro s
  induction s with
  | nil => simp only [regexSearch, litSearch, matchHere_eq_litHere pat [] h]
  | cons c cs ih =>
    simp only [regexSearch, litSearch, matchHere_eq_litHere pat (c :: cs) h, ih]

/-- C5: for every filter criteria pair, the filtered view is a subsequence of
the original table, rows in their original relative order. -/
theorem C5_filtered_view_subsequence (df : List Row) (loc cui : String) :
    ((filtered_df df loc cui).map Prod.snd).Sublist df := by
  have h := (filtered_df_sublist_enum df loc cui).map Prod.snd
  rwa [List.enum_map_snd] at h

/-- C7: with both criteria set to the wildcard Any, the filtered view is the
whole original table, indices and rows alike. -/
theorem C7_any_any_identity (df : List Row) :
    filtered_df df "Any" "Any" = df.enum ∧
    (filtered_df df "Any" "Any").map Prod.snd = df := by
  have h1 : filtered_df df "Any" "Any" = df.enum := by
    simp [filtered_df]
  exact ⟨h1, by rw [h1, List.enum_map_snd]⟩

/-- C2: with the dataset file absent, the loader returns the empty frame and
shows the on-screen error without raising, but the startup feature-building
step then raises a KeyError on the column-less frame, so the application
crashes instead of rendering the empty dataset. -/
theorem C2_missing_file_keyerror :
    (load_data none).1.rows = [] ∧ (load_data none).2 = true ∧
    startupMatrix (fun s : String => s) (load_data none).1
      = Except.error "KeyError" :=
  ⟨rfl, rfl, rfl⟩

/-- C9: the cuisine criterion is interpreted as a regular expression, not a
literal substring: the pattern a.c contains the metacharacter dot, the filter
keeps the row whose cuisines cell is axc, yet that cell does not literally
contain the pattern. -/
theorem C9_regex_interpretation :
    '.' ∈ ("a.c" : String).data ∧
    (filtered_df [rAXC] "Any" "a.c").map Prod.snd = [rAXC] ∧
    rAXC.Cuisines = some "axc" ∧
    containsCI "a.c" "axc" = false := by
  decide

/-- C6 as stated fails: the row whose cuisines cell is bxd is kept by the
criterion b.d although its cell does not contain b.d as a substring. -/
theorem C6_counterexample :
    rBXD.Cuisines = some "bxd" ∧
    ¬ (cuisineMatch "b.d" rBXD = true ↔ containsCI "b.d" "bxd" = true) := by
  decide

/-- C6 amended: for a selected cuisine other than Any that contains no regex
metacharacter, a row is kept by the cuisine filter iff its cuisines cell is
present and contains the selected value as a case-insensitive substring; in
particular a row with a missing cuisines cell is never kept. -/
theorem C6_amended_literal_iff (r : Row) (sel : String) (h1 : sel ≠ "Any")
    (h2 : noRegexMeta sel) :
    cuisineMatch sel r = true ↔
      ∃ c, r.Cuisines = some c ∧ containsCI sel c = true := by
  have hdot : ∀ p ∈ sel.data, p ≠ '.' := by
    intro p hp hcontra
    exact h2 p hp (by rw [hcontra]; decide)
  unfold cuisineMatch
  rw [if_neg h1]
  unfold str_contains
  cases hc : r.Cuisines with
  | none => simp
  | some c =>
    show regexSearch sel.data c.data = true ↔
      ∃ c2, some c = some c2 ∧ containsCI sel c2 = true
    rw [regexSearch_eq_litSearch sel.data hdot c.data]
    constructor
    · intro hl
      exact ⟨c, rfl, hl⟩
    · rintro ⟨c2, hc2, hl⟩
      injection hc2 with hc2
      subst hc2
      exact hl

/-- C6 witness: filtering on pizza keeps a row whose cuisines cell contains
Pizza with a capital letter. -/
theorem C6_amended_witness :
    (cuisineMatch "pizza" rPizza = true ↔
      ∃ c, rPizza.Cuisines = some c ∧ containsCI "pizza" c = true) ∧
    cuisineMatch "pizza" rPizza = true :=
  ⟨C6_amended_literal_iff rPizza "pizza" (by decide) (by decide), by decide⟩

/-- C4: when filtering yields zero rows the handler reports the no-match
warning and issues no nearest-neighbor query. -/
theorem C4_empty_filter_warns {α : Type} (vectorize : String → α)
    (dist : α → α → ℕ) (df : List Row) (m : List α) (loc cui : String)
    (h : filtered_df df loc cui = []) :
    buttonHandler vectorize dist df m loc cui
      = { outcome := Outcome.warning, knnCalls := 0 } := by
  simp only [buttonHandler, h, List.head?_nil]

/-- C4 witness: no row of the concrete table has locality zzz, so the
concrete handler run warns without querying. -/
theorem C4_empty_filter_warns_witness :
    buttonHandler id dist01 dfW mW "zzz" "Any"
      = { outcome := Outcome.warning, knnCalls := 0 } :=
  C4_empty_filter_warns id dist01 dfW mW "zzz" "Any" (by decide)

/-- C10: a row missing any of name, cuisines or locality has a missing
combined text, and if such a row seeds the query the handler crashes in the
seed vectorization step, issuing no nearest-neighbor query and producing no
recommendations. -/
theorem C10_missing_field_crashes {α : Type} (vectorize : String → α)
    (dist : α → α → ℕ) (df : List Row) (m : List α) (loc cui : String)
    (i : ℕ) (r : Row)
    (hmiss : r.Restaurant_Name = none ∨ r.Cuisines = none ∨ r.Locality = none)
    (hhead : (filtered_df df loc cui).head? = some (i, r)) :
    combined_text r = none ∧
    buttonHandler vectorize dist df m loc cui
      = { outcome := Outcome.crash "transform: nan document", knnCalls := 0 } := by
  have hct : combined_text r = none := by
    obtain ⟨n, c, l, a, ra, v⟩ := r
    rcases hmiss with h | h | h
    · dsimp only at h
      subst h
      cases c <;> cases l <;> rfl
    · dsimp only at h
      subst h
      cases n <;> cases l <;> rfl
    · dsimp only at h
      subst h
      cases n <;> cases c <;> rfl
  refine ⟨hct, ?_⟩
  simp only [buttonHandler, hhead, hct]

/-- C10 witness: the first row of the concrete table has a missing cuisines
cell, and the handler run on it crashes in the vectorization step. -/
theorem C10_missing_field_crashes_witness :
    combined_text rMiss = none ∧
    buttonHandler id dist01 dfMiss mW "Any" "Any"
      = { outcome := Outcome.crash "transform: nan document", knnCalls := 0 } :=
  C10_missing_field_crashes id dist01 dfMiss mW "Any" "Any" 0 rMiss
    (Or.inr (Or.inl rfl)) (by decide)

/-- C3: the candidate pool is independent of the filter criteria: two
criteria pairs that select the same seed produce identical traces, and any
presented result set is obtained by looking the returned indices, first one
dropped, up in the full original table. -/
theorem C3_pool_is_original_table {α : Type} (vectorize : String → α)
    (dist : α → α → ℕ) (df : List Row) (m : List α)
    (loc cui loc2 cui2 : String)
    (hhead : (filtered_df df loc cui).head? = (filtered_df df loc2 cui2).head?) :
    buttonHandler vectorize dist df m loc cui
      = buttonHandler vectorize dist df m loc2 cui2 ∧
    ∀ inds rows,
      (buttonHandler vectorize dist df m loc cui).outcome
          = Outcome.results inds rows →
      renderRows df inds.tail = Except.ok rows := by
  constructor
  · unfold buttonHandler
    rw [hhead]
  · intro inds rows h
    obtain ⟨p, q, _, _, _, hrr⟩ :=
      buttonHandler_results_inv vectorize dist df m loc cui inds rows h
    exact hrr

/-- C3 witness: two different criteria pairs with the same seed row yield
the same trace on the concrete table. -/
theorem C3_pool_is_original_table_witness :
    buttonHandler id dist01 dfW mW "Any" "Any"
      = buttonHandler id dist01 dfW mW "c" "Any" :=
  (C3_pool_is_original_table id dist01 dfW mW "Any" "Any" "c" "Any" (by decide)).1

/-- C8: under a successful startup transform, matrix row i is the transform
of the combined text of table row i, and every results outcome of the
handler, for any filter criteria, stems from one nearest-neighbor query
against that same startup matrix seeded by the first filtered row. -/
theorem C8_row_correspondence {α : Type} (vectorize : String → α)
    (dist : α → α → ℕ) (df : List Row) (m : List α)
    (hm : transformSeries vectorize (df.map combined_text) = Except.ok m) :
    (∀ i r, df.get? i = some r →
       ∃ s, combined_text r = some s ∧ m.get? i = some (vectorize s)) ∧
    ∀ loc cui inds rows,
      (buttonHandler vectorize dist df m loc cui).outcome
          = Outcome.results inds rows →
      ∃ p q, (filtered_df df loc cui).head? = some p ∧
        combined_text p.2 = some q ∧
        kneighbors dist m (vectorize q) 6 = Except.ok inds := by
  constructor
  · intro i r hr
    obtain ⟨hmlen, hget⟩ := transformSeries_ok vectorize (df.map combined_text) m hm
    have hts : (df.map combined_text).get? i = some (combined_text r) := by
      rw [List.get?_map, hr]
      rfl
    exact hget i (combined_text r) hts
  · intro loc cui inds rows h
    obtain ⟨p, q, h1, h2, h3, _⟩ :=
      buttonHandler_results_inv vectorize dist df m loc cui inds rows h
    exact ⟨p, q, h1, h2, h3⟩

/-- C8 witness: on the concrete table, matrix row zero is the transform of
the combined text of table row zero. -/
theorem C8_row_correspondence_witness :
    ∃ s, combined_text rW0 = some s ∧ mW.get? 0 = some (id s) :=
  (C8_row_correspondence id dist01 dfW mW rfl).1 0 rW0 rfl

/-- C1 amended: for a non-empty filtered view with defined seed combined
text and a pool of at least six rows, the query returns exactly six indices
and five rows are presented; the first index is the seed row index provided
no other matrix row lies at distance zero from the seed vector. -/
theorem C1_amended_first_is_seed {α : Type} (vectorize : String → α)
    (dist : α → α → ℕ) (df : List Row) (m : List α) (loc cui : String)
    (i : ℕ) (r : Row) (q : String)
    (hself : ∀ v, dist v v = 0)
    (hm : transformSeries vectorize (df.map combined_text) = Except.ok m)
    (hlen : 6 ≤ df.length)
    (hhead : (filtered_df df loc cui).head? = some (i, r))
    (hq : combined_text r = some q)
    (huniq : ∀ p ∈ m.enum, dist p.2 (vectorize q) = 0 → p.1 = i) :
    ∃ inds rows,
      (buttonHandler vectorize dist df m loc cui).outcome
          = Outcome.results inds rows ∧
      inds.length = 6 ∧ inds.head? = some i ∧ rows.length = 5 := by
  obtain ⟨hmlen, hget⟩ := transformSeries_ok vectorize (df.map combined_text) m hm
  have hmlen2 : m.length = df.length := by simpa using hmlen
  have hnm : ¬ m.length < 6 := by omega
  have hmem : (i, r) ∈ filtered_df df loc cui := mem_of_head?_eq _ _ hhead
  have hdfi : df.get? i = some r := by
    have h2 := mem_filtered_df df loc cui (i, r) hmem
    simpa using h2
  have hts : (df.map combined_text).get? i = some (combined_text r) := by
    rw [List.get?_map, hdfi]
    rfl
  obtain ⟨s, hs1, hs2⟩ := hget i (combined_text r) hts
  rw [hq] at hs1
  injection hs1 with hs1
  subst hs1
  obtain ⟨inds, hok, hleninds, hbound⟩ := kneighbors_ok dist m (vectorize q) 6 hnm
  have hhead6 : inds.head? = some i :=
    kneighbors_head dist m (vectorize q) 6 (by omega) i (vectorize q) hs2
      (hself _) huniq inds hok
  have hboundtail : ∀ j ∈ inds.tail, j < df.length := by
    intro j hj
    have h3 := hbound j (List.mem_of_mem_tail hj)
    omega
  obtain ⟨rows, hrr, hrlen⟩ := renderRows_ok df inds.tail hboundtail
  refine ⟨inds, rows, ?_, hleninds, hhead6, ?_⟩
  · simp only [buttonHandler, hhead, hq, hok, hrr]
  · rw [hrlen, List.length_tail, hleninds]

/-- C1 witness: on the concrete table with pairwise distinct combined texts,
the handler returns six indices, the first being the seed row index, and
presents five rows. -/
theorem C1_amended_first_is_seed_witness :
    ∃ inds rows,
      (buttonHandler id dist01 dfW mW "c" "Any").outcome
          = Outcome.results inds rows ∧
      inds.length = 6 ∧ inds.head? = some 0 ∧ rows.length = 5 :=
  C1_amended_first_is_seed id dist01 dfW mW "c" "Any" 0 rW0 "a b c"
    (fun v => by simp [dist01]) rfl (by decide) (by decide) (by decide)
    (by decide)

/-- C1 as stated fails: on the table whose first two rows share one combined
text, the cuisine criterion b seeds the query with row one, the query
succeeds with six indices and five presented rows, yet the first returned
index is zero, not the seed row index one. -/
theorem C1_counterexample_first_not_seed :
    (filtered_df dfDup "Any" "b").head? = some (1, rD1) ∧
    transformSeries id (dfDup.map combined_text) = Except.ok mDup ∧
    6 ≤ dfDup.length ∧
    (buttonHandler id dist01 dfDup mDup "Any" "b").outcome
      = Outcome.results [0, 1, 2, 3, 4, 5] [rD1, rD2, rD3, rD4, rD5] ∧
    ([0, 1, 2, 3, 4, 5] : List ℕ).head? ≠ some 1 :=
  ⟨by decide, rfl, by decide, by decide, by decide⟩
